import Mathlib

/-!
# Verification of the RAPTOR frontend (App.jsx)

A shallow embedding of the journey-display logic of the React frontend
(`src/Frontend/src/App.jsx`, which contains two revisions of the component,
and `src/unnamed/part_000`, an earlier revision).  Times are modelled by
their numeric `HH:MM:SS` fields, coordinates by rationals, and the stateful
React component by explicit state-transition functions.
-/

namespace Raptor

/-- A `"HH:MM:SS"` time string, modelled by the three numeric fields that
`t.split(':').map(Number)` produces.  Journey legs always carry well-formed
three-field times (the backend sanitises them), so the JS guards for a
missing string (`if (!t) return 0` / `(s || 0)`) never fire on leg times. -/
structure HMS where
  h : Nat
  m : Nat
  s : Nat
deriving DecidableEq, Repr

/-- `parseToSec` / `parse` from the journey-card and sort code:
`h * 3600 + m * 60 + s`, as a JS number (here `Int`, so that later
subtractions behave as in JS). -/
def parseToSec (t : HMS) : Int :=
  (t.h : Int) * 3600 + (t.m : Int) * 60 + (t.s : Int)

/-- A `{lat, lon}` coordinate pair (`FromStopCoords` / `ToStopCoords`).
The JS strings pass through `parseFloat`; we model the parsed values
directly as rationals. -/
structure Coords where
  lat : ℚ
  lon : ℚ
deriving DecidableEq, Repr

/-- One journey leg in the wire format emitted by the backend and consumed by
`App.jsx`.  `Shape`, when present, is a list of `[lat, lon]` points;
`none` models a missing/null `Shape` field. -/
structure Leg where
  FromStopId : String
  FromStop : String
  FromStopCoords : Coords
  ToStopId : String
  ToStop : String
  ToStopCoords : Coords
  DepartureTime : HMS
  ArrivalTime : HMS
  RouteId : String
  RouteLongId : String
  Shape : Option (List (ℚ × ℚ))
deriving DecidableEq, Repr

/-- A journey is the list of its legs, exactly as the backend returns it. -/
abbrev Journey := List Leg

/-- `getMetrics` from the sort comparator in `handleSearch` (final revision of
`App.jsx`):

```
if (!j || !j.length) return { dep: 999999, dur: 999999 };
let sSec = parse(j[0].DepartureTime);
let eSec = parse(j[j.length - 1].ArrivalTime);
if (eSec < sSec) eSec += 86400; // Handle midnight wrap
return { dep: sSec, dur: eSec - sSec };
```
-/
def getMetrics : Journey → Int × Int
  | [] => (999999, 999999)
  | first :: rest =>
    let sSec := parseToSec first.DepartureTime
    let e0 := parseToSec ((first :: rest).getLast (List.cons_ne_nil _ _)).ArrivalTime
    let eSec := if e0 < sSec then e0 + 86400 else e0
    (sSec, eSec - sSec)

/-- The first-departure sort key (`dep` component of `getMetrics`). -/
def firstDepartureSec (j : Journey) : Int := (getMetrics j).1

/-- The midnight-wrap-aware total-duration sort key (`dur` component of
`getMetrics`). -/
def journeyDurationSec (j : Journey) : Int := (getMetrics j).2

/-- The numeric comparator passed to `data.sort` in `handleSearch`:

```
if (mA.dep !== mB.dep) return mA.dep - mB.dep; // Primary: Departure Time
return mA.dur - mB.dur;                        // Secondary: Duration
```
-/
def journeyCmp (a b : Journey) : Int :=
  let mA := getMetrics a
  let mB := getMetrics b
  if mA.1 ≠ mB.1 then mA.1 - mB.1 else mA.2 - mB.2

/-- `a` sorts no later than `b` under the comparator (`cmp(a, b) ≤ 0`). -/
def journeyLE (a b : Journey) : Bool := journeyCmp a b ≤ 0

/-- `data.sort(cmp)` in `handleSearch`.  `Array.prototype.sort` is required
to be stable (ES2019) and, for a consistent comparator such as this
lexicographic one, produces the unique stable order sorted by
`cmp(·,·) ≤ 0`; `List.mergeSort` computes exactly that order. -/
def sortJourneys (l : List Journey) : List Journey := l.mergeSort journeyLE

theorem journeyLE_iff (a b : Journey) :
    journeyLE a b = true ↔
      firstDepartureSec a < firstDepartureSec b ∨
      (firstDepartureSec a = firstDepartureSec b ∧
        journeyDurationSec a ≤ journeyDurationSec b) := by
  simp only [journeyLE, journeyCmp, firstDepartureSec, journeyDurationSec,
    decide_eq_true_eq]
  split_ifs with h
  · constructor <;> intro h' <;> omega
  · constructor <;> intro h' <;> omega

theorem journeyLE_trans (a b c : Journey) :
    journeyLE a b → journeyLE b c → journeyLE a c := by
  intro hab hbc
  rw [journeyLE_iff] at hab hbc ⊢
  omega

theorem journeyLE_total (a b : Journey) : journeyLE a b || journeyLE b a := by
  rw [Bool.or_eq_true, journeyLE_iff, journeyLE_iff]
  omega

/-- C1: After the journey list is sorted in `handleSearch`, the returned
journeys are ordered with primary key first-departure ascending and secondary
key total duration ascending (midnight-wrap aware): for every pair of
adjacent journeys `a` then `b` in the output, either
`firstDeparture a < firstDeparture b`, or they are equal and
`duration a ≤ duration b`, where the duration adds 86,400 to the final
arrival before subtracting whenever arrival < departure numerically. -/
theorem sortJourneys_ranked (l : List Journey) :
    (sortJourneys l).Chain' (fun a b =>
      firstDepartureSec a < firstDepartureSec b ∨
      (firstDepartureSec a = firstDepartureSec b ∧
        journeyDurationSec a ≤ journeyDurationSec b)) := by
  have hp : (sortJourneys l).Pairwise (fun a b => journeyLE a b = true) :=
    List.sorted_mergeSort journeyLE_trans journeyLE_total l
  exact (hp.imp (fun hab => (journeyLE_iff _ _).mp hab)).chain'

/-! ## Journey-card duration (C2)

The final revision of `App.jsx` (journey card) computes

```
let startSec = parseToSec(startTimeString);
let endSec = parseToSec(endTimeString);
if (endSec < startSec) { endSec += 86400; } // crossed midnight
const totalSec = endSec - startSec;
const durationMin = Math.round(totalSec / 60);
```

while the middle revision computes, without the wrap fix,

```
const totalSec = parseToSec(endTime) - parseToSec(startTime);
const durationMin = Math.round(totalSec / 60);
```
-/

/-- `Math.round(totalSec / 60)` for an integer `totalSec`:
`Math.round x = ⌊x + 1/2⌋`, and `⌊totalSec/60 + 1/2⌋ = ⌊(totalSec + 30)/60⌋`. -/
def roundDiv60 (totalSec : Int) : Int := (totalSec + 30).fdiv 60

/-- `totalSec` of the journey card in the final revision of `App.jsx`
(midnight-wrap aware). -/
def durationSecFinal (startT endT : HMS) : Int :=
  let startSec := parseToSec startT
  let endSec := parseToSec endT
  let endSec := if endSec < startSec then endSec + 86400 else endSec
  endSec - startSec

/-- `durationMin` of the journey card in the final revision of `App.jsx`. -/
def durationMinFinal (startT endT : HMS) : Int :=
  roundDiv60 (durationSecFinal startT endT)

/-- `totalSec` of the journey card in the middle revision of `App.jsx`
(no midnight-wrap handling). -/
def durationSecMiddle (startT endT : HMS) : Int :=
  parseToSec endT - parseToSec startT

/-- `durationMin` of the journey card in the middle revision of `App.jsx`. -/
def durationMinMiddle (startT endT : HMS) : Int :=
  roundDiv60 (durationSecMiddle startT endT)

/-- C2, counterexample: the claim quantifies over both cited duration
computations, but the middle revision's journey card (`App.jsx` lines
405–411) has no wrap handling: a journey departing 23:50:00 and arriving
00:10:00 shows a duration of −1420 minutes there, which is negative, not
the claimed 20 minutes. -/
theorem durationMinMiddle_neg_at_wrap :
    durationMinMiddle ⟨23, 50, 0⟩ ⟨0, 10, 0⟩ = -1420 ∧
    durationMinMiddle ⟨23, 50, 0⟩ ⟨0, 10, 0⟩ < 0 := by
  constructor <;> decide

/-- C2, amended: in the final revision's journey card the duration
computation detects midnight wrap (if the arrival seconds are numerically
smaller than the departure seconds, 86,400 is added before subtracting), so
for canonical start times (below 86,400 s) the computed duration is never
negative, and a journey departing 23:50 and arriving 00:10 shows 20
minutes. -/
theorem durationMinFinal_wrap (startT endT : HMS)
    (hs : parseToSec startT < 86400) :
    (parseToSec endT < parseToSec startT →
      durationSecFinal startT endT =
        parseToSec endT + 86400 - parseToSec startT) ∧
    0 ≤ durationSecFinal startT endT ∧
    0 ≤ durationMinFinal startT endT ∧
    durationMinFinal ⟨23, 50, 0⟩ ⟨0, 10, 0⟩ = 20 := by
  have h0 : (0 : Int) ≤ parseToSec endT := by
    simp only [parseToSec]; positivity
  refine ⟨?_, ?_, ?_, by decide⟩
  · intro hlt
    simp only [durationSecFinal, if_pos hlt]
  · simp only [durationSecFinal]
    split_ifs with hlt <;> omega
  · have hd : 0 ≤ durationSecFinal startT endT := by
      simp only [durationSecFinal]; split_ifs with hlt <;> omega
    simp only [durationMinFinal, roundDiv60]
    have := Int.fdiv_nonneg (a := durationSecFinal startT endT + 30)
      (b := 60) (by omega) (by omega)
    omega

/-- Witness for `durationMinFinal_wrap` at the midnight-wrap scenario
start 23:50:00, end 00:10:00. -/
theorem durationMinFinal_wrap_witness :
    (parseToSec ⟨23, 50, 0⟩ < 86400) ∧
    0 ≤ durationSecFinal ⟨23, 50, 0⟩ ⟨0, 10, 0⟩ ∧
    durationMinFinal ⟨23, 50, 0⟩ ⟨0, 10, 0⟩ = 20 :=
  ⟨by decide,
   (durationMinFinal_wrap ⟨23, 50, 0⟩ ⟨0, 10, 0⟩ (by decide)).2.1,
   (durationMinFinal_wrap ⟨23, 50, 0⟩ ⟨0, 10, 0⟩ (by decide)).2.2.2⟩

/-! ## Departure-time derivation (C3)

`handleSearch` sends `earliest_dep` with the request.  The two later
revisions derive it from the America/Los_Angeles wall clock
(`getCalifTime`); the earliest revision (`src/unnamed/part_000`) derives it
from the browser's local clock (`getTimeString(new Date())`).  We model one
instant by the wall-clock fields a `Date` yields in each of the two
timezones. -/

/-- The wall-clock fields of a single instant, as read in the browser's
local timezone (`date.getHours()` etc. on a plain `new Date()`) and in
America/Los_Angeles (via `toLocaleString("en-US", { timeZone:
"America/Los_Angeles" })`). -/
structure ClockEnv where
  browserNow : HMS
  califNow : HMS
deriving DecidableEq, Repr

/-- `String(n).padStart(2, '0')`. -/
def pad2 (n : Nat) : String :=
  if n < 10 then "0" ++ toString n else toString n

/-- `getTimeString(date)`: renders wall-clock fields as `HH:MM:SS`. -/
def getTimeString (t : HMS) : String :=
  pad2 t.h ++ ":" ++ pad2 t.m ++ ":" ++ pad2 t.s

/-- `getCalifTime()` of the middle and final revisions: both render the
America/Los_Angeles wall-clock fields of the current instant as
`HH:MM:SS` (the middle revision takes the time part of the locale string
directly, the final revision re-reads the fields through a re-parsed
`Date`). -/
def getCalifTime (env : ClockEnv) : String := getTimeString env.califNow

/-- The `earliest_dep` request parameter sent by `handleSearch` in the final
revision of `App.jsx` (`const earliest = getCalifTime()`). -/
def earliestDepFinal (env : ClockEnv) : String := getCalifTime env

/-- The `earliest_dep` request parameter sent by `handleSearch` in the middle
revision of `App.jsx` (also `getCalifTime()`). -/
def earliestDepMiddle (env : ClockEnv) : String := getCalifTime env

/-- The `earliest_dep` request parameter sent by `handleSearch` in the
earliest revision (`src/unnamed/part_000`):
`const earliest = getTimeString(new Date())`, i.e. browser-local fields. -/
def earliestDepPart000 (env : ClockEnv) : String := getTimeString env.browserNow

/-- An instant at which the browser clock reads 12:00:00 while the
America/Los_Angeles clock reads 09:00:00 (a browser in US Eastern time). -/
def easternNoonEnv : ClockEnv :=
  { browserNow := ⟨12, 0, 0⟩, califNow := ⟨9, 0, 0⟩ }

/-- C3, counterexample: in the earliest revision (`src/unnamed/part_000`)
the `earliest_dep` sent with the search request is the browser-local
rendering, not the America/Los_Angeles one: for a browser three hours ahead
of California it sends `"12:00:00"` although the service-local time is
`"09:00:00"`. -/
theorem earliestDepPart000_browser_local :
    earliestDepPart000 easternNoonEnv = "12:00:00" ∧
    getTimeString easternNoonEnv.califNow = "09:00:00" ∧
    earliestDepPart000 easternNoonEnv ≠ getTimeString easternNoonEnv.califNow := by
  refine ⟨by decide, by decide, by decide⟩

/-- C3, amended: in the middle and final revisions of `App.jsx` the
`earliest_dep` parameter is the current instant rendered `HH:MM:SS` in
America/Los_Angeles, and it is independent of the browser's own timezone:
two environments agreeing on the California clock produce the same
parameter no matter what the browser clock reads. -/
theorem earliestDep_calif_local (env env' : ClockEnv)
    (h : env.califNow = env'.califNow) :
    earliestDepFinal env = getTimeString env.califNow ∧
    earliestDepMiddle env = getTimeString env.califNow ∧
    earliestDepFinal env = earliestDepFinal env' ∧
    earliestDepMiddle env = earliestDepMiddle env' := by
  refine ⟨rfl, rfl, ?_, ?_⟩ <;>
    simp [earliestDepFinal, earliestDepMiddle, getCalifTime, h]

/-- Witness for `earliestDep_calif_local`: a California browser and a US
Eastern browser reading the same California instant send the same
`earliest_dep`. -/
theorem earliestDep_calif_local_witness :
    earliestDepFinal ⟨⟨9, 0, 0⟩, ⟨9, 0, 0⟩⟩ =
      getTimeString (⟨⟨9, 0, 0⟩, ⟨9, 0, 0⟩⟩ : ClockEnv).califNow ∧
    earliestDepFinal ⟨⟨9, 0, 0⟩, ⟨9, 0, 0⟩⟩ = earliestDepFinal easternNoonEnv :=
  ⟨(earliestDep_calif_local ⟨⟨9, 0, 0⟩, ⟨9, 0, 0⟩⟩ easternNoonEnv (by decide)).1,
   (earliestDep_calif_local ⟨⟨9, 0, 0⟩, ⟨9, 0, 0⟩⟩ easternNoonEnv (by decide)).2.2.1⟩

/-! ## Displayed search window (C4)

`updateTimeLogic` in the final revision of `App.jsx`:

```
const endH = (h + 1) % 24;
const windowRange = `${pad(h)}:${pad(m)} - ${pad(endH)}:${pad(m)}`;
```
-/

/-- The end hour of the displayed search window: `(h + 1) % 24`. -/
def windowEndH (h : Nat) : Nat := (h + 1) % 24

/-- The `windowRange` string of `updateTimeLogic`. -/
def windowRange (t : HMS) : String :=
  pad2 t.h ++ ":" ++ pad2 t.m ++ " - " ++ pad2 (windowEndH t.h) ++ ":" ++ pad2 t.m

/-- Seconds since midnight of the window start displayed by
`updateTimeLogic` (hour and minute of the current California time). -/
def windowStartSec (t : HMS) : Nat := t.h * 3600 + t.m * 60

/-- Seconds since midnight of the window end displayed by
`updateTimeLogic`. -/
def windowEndSec (t : HMS) : Nat := windowEndH t.h * 3600 + t.m * 60

/-- C4: the displayed search window spans exactly 60 minutes (3,600 s): for
any canonical California time the window end is the window start plus one
hour, taken modulo 24 h, and a window starting at 23:30 renders as
`"23:30 - 00:30"`. -/
theorem windowRange_one_hour (t : HMS) (hh : t.h < 24) (hm : t.m < 60) :
    windowEndSec t = (windowStartSec t + 3600) % 86400 ∧
    windowRange ⟨23, 30, 0⟩ = "23:30 - 00:30" := by
  refine ⟨?_, by decide⟩
  simp only [windowEndSec, windowStartSec, windowEndH]
  rcases Nat.lt_or_ge t.h 23 with h23 | h23
  · rw [Nat.mod_eq_of_lt (by omega), Nat.mod_eq_of_lt (by omega)]
    ring
  · have h23' : t.h = 23 := by omega
    rw [h23']
    omega

/-- Witness for `windowRange_one_hour` at 23:30:00: the displayed window
wraps to 00:30. -/
theorem windowRange_one_hour_witness :
    windowEndSec ⟨23, 30, 0⟩ = (windowStartSec ⟨23, 30, 0⟩ + 3600) % 86400 ∧
    windowRange ⟨23, 30, 0⟩ = "23:30 - 00:30" :=
  windowRange_one_hour ⟨23, 30, 0⟩ (by decide) (by decide)

/-! ## Rendered route features (C5, C8)

`routeGeoJSON` in `App.jsx` (identical in all three revisions):

```
const start = [lon(FromStopCoords), lat(FromStopCoords)];
const end   = [lon(ToStopCoords),   lat(ToStopCoords)];
let coordinates = [start, end];
if (step.Shape && step.Shape.length > 0) {
    coordinates = step.Shape.map(pt => [pt[1], pt[0]]);
}
return { ..., geometry: { type: 'LineString', coordinates },
         properties: { isWalk: !step.RouteId } };
```
-/

/-- The data of one GeoJSON feature produced for a leg: the polyline
coordinates (`[lon, lat]` pairs) and the `isWalk` property. -/
structure RouteFeature where
  coordinates : List (ℚ × ℚ)
  isWalk : Bool
deriving DecidableEq, Repr

/-- The feature `routeGeoJSON` builds for one leg.  `!step.RouteId` is JS
string falsiness: true exactly for the empty string. -/
def legFeature (step : Leg) : RouteFeature :=
  let startPt := (step.FromStopCoords.lon, step.FromStopCoords.lat)
  let endPt := (step.ToStopCoords.lon, step.ToStopCoords.lat)
  let coordinates :=
    match step.Shape with
    | some pts => if 0 < pts.length then pts.map (fun pt => (pt.2, pt.1))
                  else [startPt, endPt]
    | none => [startPt, endPt]
  { coordinates := coordinates, isWalk := step.RouteId.isEmpty }

/-- `routeGeoJSON` for the selected journey: one feature per leg. -/
def routeGeoJSON (j : Journey) : List RouteFeature := j.map legFeature

/-- C5: a leg is classified and rendered as a walking leg exactly when its
`RouteId` is the empty string, and as a transit leg exactly when `RouteId`
is non-empty (`isWalk = !step.RouteId` for every leg of the selected
journey). -/
theorem legFeature_isWalk_iff (j : Journey) (step : Leg) :
    routeGeoJSON j = j.map legFeature ∧
    ((legFeature step).isWalk = true ↔ step.RouteId = "") ∧
    ((legFeature step).isWalk = false ↔ step.RouteId ≠ "") := by
  refine ⟨rfl, by simp [legFeature, String.isEmpty_iff], ?_⟩
  rw [Bool.eq_false_iff]
  exact not_congr (by simp [legFeature, String.isEmpty_iff])

/-- The polyline the claim describes for one leg: the leg's `Shape` with
every `[lat, lon]` point reversed to `[lon, lat]` when `Shape` is present
and non-empty, and otherwise the two-point straight segment from
`FromStopCoords` to `ToStopCoords`. -/
def legCoordsSpec (step : Leg) : List (ℚ × ℚ) :=
  match step.Shape with
  | some (p :: ps) => (p :: ps).map (fun pt => (pt.2, pt.1))
  | _ => [(step.FromStopCoords.lon, step.FromStopCoords.lat),
          (step.ToStopCoords.lon, step.ToStopCoords.lat)]

/-- C8: for every leg, the rendered polyline is the leg's `Shape` with each
point reversed from `[lat, lon]` to `[lon, lat]` when `Shape` is present and
non-empty, and otherwise exactly the straight two-point segment from
`FromStopCoords` to `ToStopCoords`; in particular a leg whose `Shape` is the
empty list falls back to the straight segment. -/
theorem legFeature_coordinates_spec (step : Leg) :
    (legFeature step).coordinates = legCoordsSpec step ∧
    (step.Shape = some [] →
      (legFeature step).coordinates =
        [(step.FromStopCoords.lon, step.FromStopCoords.lat),
         (step.ToStopCoords.lon, step.ToStopCoords.lat)]) := by
  constructor
  · rcases hs : step.Shape with _ | pts
    · simp [legFeature, legCoordsSpec, hs]
    · rcases pts with _ | ⟨p, ps⟩
      · simp [legFeature, legCoordsSpec, hs]
      · simp [legFeature, legCoordsSpec, hs]
  · intro hs
    simp [legFeature, hs]

/-- Witness for `legFeature_coordinates_spec` (second part has a
hypothesis): a concrete leg with `Shape = some []` renders as the straight
segment. -/
theorem legFeature_coordinates_spec_witness :
    (legFeature
      { FromStopId := "A", FromStop := "A", FromStopCoords := ⟨1, 2⟩,
        ToStopId := "B", ToStop := "B", ToStopCoords := ⟨3, 4⟩,
        DepartureTime := ⟨8, 0, 0⟩, ArrivalTime := ⟨8, 20, 0⟩,
        RouteId := "R1", RouteLongId := "T1",
        Shape := some [] }).coordinates = [(2, 1), (4, 3)] :=
  (legFeature_coordinates_spec _).2 rfl

/-! ## Search outcome states (C6)

`handleSearch` resets `error`, `journeys` and `selectedJourneyIndex` to
null, performs the request, and then:

```
if (data && data.length > 0) { sort; setJourneys(data); setSelectedJourneyIndex(0); }
else { setError("No optimal routes found. ..."); }
// catch: setError("Failed to calculate route. ...");
```
-/

/-- The outcome of the `/api/route` request: `success data` with
`data : Option (List Journey)` (`none` models a null/undefined body), or
`failure` when the request itself rejects. -/
inductive RouteResponse where
  | success (data : Option (List Journey))
  | failure
deriving DecidableEq

/-- The message `handleSearch` shows when the request succeeds but no
journey is found. -/
def noRoutesMsg : String :=
  "No optimal routes found. Try increasing max transfers or picking different stops."

/-- The message `handleSearch` shows when the request rejects. -/
def backendFailMsg : String :=
  "Failed to calculate route. Ensure the backend server is active."

/-- The three journey-related state fields `handleSearch` writes. -/
structure SearchState where
  journeys : Option (List Journey)
  selectedJourneyIndex : Option Nat
  error : Option String
deriving DecidableEq

/-- The state `handleSearch` leaves behind (fields start as null from the
resets at the top of the handler; `data && data.length > 0` is the JS guard,
with a null body behaving as an empty list). -/
def handleSearchResult (r : RouteResponse) : SearchState :=
  match r with
  | .success data =>
    if 0 < (data.getD []).length then
      { journeys := some (sortJourneys (data.getD []))
        selectedJourneyIndex := some 0
        error := none }
    else
      { journeys := none, selectedJourneyIndex := none, error := some noRoutesMsg }
  | .failure =>
    { journeys := none, selectedJourneyIndex := none, error := some backendFailMsg }

/-- The no-journey state: no journeys, no selection, the no-routes message. -/
def noJourneyState : SearchState :=
  { journeys := none, selectedJourneyIndex := none, error := some noRoutesMsg }

/-- C6: an empty journey list is never surfaced as a request failure: a
successful request with a missing or empty list leaves `journeys` and
`selectedJourneyIndex` null and shows the no-routes message, and the
backend-failure message is produced exactly when the request itself
rejects. -/
theorem emptyList_not_request_failure :
    handleSearchResult (.success none) = noJourneyState ∧
    handleSearchResult (.success (some [])) = noJourneyState ∧
    ∀ r : RouteResponse,
      ((handleSearchResult r).error = some backendFailMsg ↔ r = .failure) := by
  refine ⟨rfl, rfl, ?_⟩
  intro r
  rcases r with data | _
  · constructor
    · intro h
      exfalso
      rcases data with _ | l
      · simp only [handleSearchResult, Option.getD_none, List.length_nil,
          lt_irrefl, if_false] at h
        rw [Option.some_inj] at h
        exact absurd h (by decide)
      · simp only [handleSearchResult, Option.getD_some] at h
        split_ifs at h with hl
        exact absurd h (by decide)
    · intro h
      cases h
  · simp [handleSearchResult]

/-! ## Determinism and stability of the ranking (C7) -/

theorem journeyLE_of_metrics_eq {a b : Journey}
    (h : getMetrics a = getMetrics b) : journeyLE a b = true := by
  rw [journeyLE_iff]
  right
  simp [firstDepartureSec, journeyDurationSec, h]

theorem getMetrics_head_getLast (a b : Journey)
    (h1 : a.head?.map Leg.DepartureTime = b.head?.map Leg.DepartureTime)
    (h2 : a.getLast?.map Leg.ArrivalTime = b.getLast?.map Leg.ArrivalTime) :
    getMetrics a = getMetrics b := by
  cases a with
  | nil =>
    cases b with
    | nil => rfl
    | cons y ys => simp at h1
  | cons x xs =>
    cases b with
    | nil => simp at h1
    | cons y ys =>
      simp only [List.head?_cons, Option.map_some'] at h1
      rw [List.getLast?_eq_getLast _ (List.cons_ne_nil _ _),
          List.getLast?_eq_getLast _ (List.cons_ne_nil _ _)] at h2
      simp only [Option.map_some'] at h2
      injection h1 with h1
      injection h2 with h2
      simp only [getMetrics]
      rw [h1, h2]

/-- C7: the final ranking is deterministic given its input set: the sorted
list is a permutation of the input, the comparator metrics depend only on
the first leg's `DepartureTime` and the last leg's `ArrivalTime`, and the
sort is stable — any chain of equal-comparing journeys appearing in input
order is still in that order in the output. -/
theorem ranking_deterministic (l : List Journey) :
    (sortJourneys l).Perm l ∧
    (∀ a b : Journey,
      a.head?.map Leg.DepartureTime = b.head?.map Leg.DepartureTime →
      a.getLast?.map Leg.ArrivalTime = b.getLast?.map Leg.ArrivalTime →
      getMetrics a = getMetrics b) ∧
    (∀ c : List Journey,
      c.Pairwise (fun a b => getMetrics a = getMetrics b) →
      c.Sublist l → c.Sublist (sortJourneys l)) := by
  refine ⟨List.mergeSort_perm l journeyLE,
    fun a b h1 h2 => getMetrics_head_getLast a b h1 h2, ?_⟩
  intro c hc hs
  exact List.sublist_mergeSort journeyLE_trans journeyLE_total
    (hc.imp journeyLE_of_metrics_eq) hs

/-- A concrete transit leg used by the witnesses. -/
def sampleLeg : Leg :=
  { FromStopId := "S1", FromStop := "Stop One", FromStopCoords := ⟨37, -122⟩,
    ToStopId := "S2", ToStop := "Stop Two", ToStopCoords := ⟨38, -121⟩,
    DepartureTime := ⟨8, 0, 0⟩, ArrivalTime := ⟨8, 20, 0⟩,
    RouteId := "R1", RouteLongId := "Trip1", Shape := none }

/-- The same schedule on a different route: equal sort metrics. -/
def sampleLegB : Leg :=
  { sampleLeg with RouteId := "R2", RouteLongId := "Trip2" }

/-- Witness for `ranking_deterministic`: two distinct journeys with equal
metrics keep their input order through the sort. -/
theorem ranking_deterministic_witness :
    getMetrics [sampleLeg] = getMetrics [sampleLegB] ∧
    [[sampleLeg], [sampleLegB]].Sublist
      (sortJourneys [[sampleLeg], [sampleLegB]]) :=
  ⟨(ranking_deterministic [[sampleLeg]]).2.1 [sampleLeg] [sampleLegB]
      (by decide) (by decide),
   (ranking_deterministic [[sampleLeg], [sampleLegB]]).2.2
      [[sampleLeg], [sampleLegB]] (by decide) (List.Sublist.refl _)⟩

/-! ## Stop-selection state machine (C9)

The map click handler of `App.jsx` (all revisions):

```
if (!currentSourceId)      { setSourceId(id); setSourceName(displayName); }
else if (!currentTargetId) { setTargetId(id); setTargetName(displayName); }
else                       { setTargetId(id); setTargetName(displayName); }
```

`handleClear` resets `sourceId`, `sourceName`, `targetId`, `targetName`,
`journeys`, `selectedJourneyIndex` and `error`.  `handleSearch` returns at
once unless both stops are set, and only ever writes the journey fields. -/

/-- The component state the claims are about. -/
structure UIState where
  sourceId : String
  sourceName : String
  targetId : String
  targetName : String
  journeys : Option (List Journey)
  selectedJourneyIndex : Option Nat
  error : Option String
deriving DecidableEq

/-- The user-visible events that write this state. -/
inductive UIEvent where
  | stopClick (id name agency : String)
  | clear
  | searchDone (r : RouteResponse)
deriving DecidableEq

/-- The `unclustered-point` click handler. -/
def clickStop (st : UIState) (id name agency : String) : UIState :=
  let displayName := name ++ " (" ++ agency ++ ")"
  if st.sourceId.isEmpty then
    { st with sourceId := id, sourceName := displayName }
  else if st.targetId.isEmpty then
    { st with targetId := id, targetName := displayName }
  else
    { st with targetId := id, targetName := displayName }

/-- `handleClear`. -/
def clearSelection (st : UIState) : UIState :=
  { st with sourceId := "", sourceName := "", targetId := "", targetName := "",
            journeys := none, selectedJourneyIndex := none, error := none }

/-- The state update of a completed `handleSearch` (the guard
`if (!sourceId || !targetId) return` makes it a no-op unless both stops are
set; it never writes the stop fields). -/
def applySearch (st : UIState) (r : RouteResponse) : UIState :=
  if st.sourceId.isEmpty || st.targetId.isEmpty then st
  else
    let res := handleSearchResult r
    { st with journeys := res.journeys,
              selectedJourneyIndex := res.selectedJourneyIndex,
              error := res.error }

/-- One step of the component's state machine. -/
def uiStep (st : UIState) : UIEvent → UIState
  | .stopClick id name agency => clickStop st id name agency
  | .clear => clearSelection st
  | .searchDone r => applySearch st r

theorem isEmpty_false_of_ne {s : String} (h : s ≠ "") : s.isEmpty = false := by
  rwa [Bool.eq_false_iff, ne_eq, String.isEmpty_iff]

/-- C9: once a source stop has been selected, no map click ever changes it —
a click with the source set writes only the target; the source becomes
empty again only through the Clear action, which simultaneously resets
source, target, journeys, selected index and error. -/
theorem source_locked_until_clear (st : UIState) (e : UIEvent) :
    (∀ id name agency, st.sourceId ≠ "" →
      (uiStep st (.stopClick id name agency)).sourceId = st.sourceId ∧
      (uiStep st (.stopClick id name agency)).targetId = id) ∧
    ((uiStep st e).sourceId ≠ st.sourceId →
      e = .clear ∨
      (st.sourceId = "" ∧ ∃ id name agency, e = .stopClick id name agency)) ∧
    ((uiStep st .clear).sourceId = "" ∧ (uiStep st .clear).targetId = "" ∧
      (uiStep st .clear).journeys = none ∧
      (uiStep st .clear).selectedJourneyIndex = none ∧
      (uiStep st .clear).error = none) := by
  refine ⟨?_, ?_, by simp [uiStep, clearSelection]⟩
  · intro id name agency hsrc
    have he := isEmpty_false_of_ne hsrc
    constructor
    · simp only [uiStep, clickStop, he, Bool.false_eq_true, if_false]
      split_ifs <;> rfl
    · simp only [uiStep, clickStop, he, Bool.false_eq_true, if_false]
      split_ifs <;> rfl
  · intro hchg
    cases e with
    | stopClick id name agency =>
      right
      by_cases hsrc : st.sourceId = ""
      · exact ⟨hsrc, id, name, agency, rfl⟩
      · exfalso
        have he := isEmpty_false_of_ne hsrc
        apply hchg
        simp only [uiStep, clickStop, he, Bool.false_eq_true, if_false]
        split_ifs <;> rfl
    | clear => exact Or.inl rfl
    | searchDone r =>
      exfalso
      apply hchg
      simp only [uiStep, applySearch]
      split_ifs <;> rfl

/-- Witness for `source_locked_until_clear`: with source `"S1"` and target
`"S2"` set, a further click replaces only the target. -/
theorem source_locked_until_clear_witness :
    (uiStep ⟨"S1", "Stop One", "S2", "Stop Two", none, none, none⟩
      (.stopClick "S3" "Stop Three" "AG")).sourceId = "S1" ∧
    (uiStep ⟨"S1", "Stop One", "S2", "Stop Two", none, none, none⟩
      (.stopClick "S3" "Stop Three" "AG")).targetId = "S3" :=
  (source_locked_until_clear
      ⟨"S1", "Stop One", "S2", "Stop Two", none, none, none⟩
      (.stopClick "S3" "Stop Three" "AG")).1 "S3" "Stop Three" "AG"
    (by decide)

/-! ## Transfer count and the Direct label (C10)

The journey card of the final revision of `App.jsx`:

```
const transitLegs = journey.filter(step => step.RouteId);
const transferCount = transitLegs.length - 1;
...
{transferCount === 0 ? 'Direct' : `${transferCount} Transfer${transferCount > 1 ? 's' : ''}`}
```
-/

/-- `transitLegs.length`: the number of legs with a truthy (non-empty)
`RouteId`. -/
def numTransitLegs (j : Journey) : Nat :=
  (j.filter (fun step => !step.RouteId.isEmpty)).length

/-- `transferCount = transitLegs.length - 1` as a JS number: `Int`, so a
walking-only journey yields `-1`. -/
def transferCount (j : Journey) : Int := (numTransitLegs j : Int) - 1

/-- The transfer-summary text of the journey card. -/
def transferLabel (j : Journey) : String :=
  if transferCount j = 0 then "Direct"
  else toString (transferCount j) ++ " Transfer" ++
    (if 1 < transferCount j then "s" else "")

theorem bang_isEmpty_eq_decide (s : String) :
    (!s.isEmpty) = decide (s ≠ "") := by
  by_cases h : s = ""
  · subst h; rfl
  · simp [isEmpty_false_of_ne h, h]

/-- C10: the displayed transfer count equals the number of legs with a
non-empty `RouteId` minus one, the label `"Direct"` appears exactly when the
journey has precisely one transit leg, and a journey consisting only of
walking legs displays a transfer count of −1. -/
theorem transferCount_spec (j : Journey) :
    transferCount j =
      ((j.filter (fun step => decide (step.RouteId ≠ ""))).length : Int) - 1 ∧
    (transferLabel j = "Direct" ↔ numTransitLegs j = 1) ∧
    ((∀ step ∈ j, step.RouteId = "") → transferCount j = -1) := by
  refine ⟨?_, ?_, ?_⟩
  · have hfil : j.filter (fun step => !step.RouteId.isEmpty)
        = j.filter (fun step => decide (step.RouteId ≠ "")) := by
      apply List.filter_congr
      intro x _
      exact bang_isEmpty_eq_decide x.RouteId
    simp [transferCount, numTransitLegs, hfil]
  · by_cases hc : transferCount j = 0
    · rw [transferLabel, if_pos hc]
      simp only [transferCount] at hc
      constructor
      · intro _; omega
      · intro _; rfl
    · rw [transferLabel, if_neg hc]
      constructor
      · intro heq
        exfalso
        have hl := congrArg String.length heq
        rw [String.length_append, String.length_append] at hl
        have h9 : (" Transfer").length = 9 := rfl
        have h6 : ("Direct").length = 6 := rfl
        by_cases h1 : 1 < transferCount j
        · rw [if_pos h1] at hl
          have hs1 : ("s").length = 1 := rfl
          rw [h9, h6, hs1] at hl
          omega
        · rw [if_neg h1] at hl
          have hs0 : ("").length = 0 := rfl
          rw [h9, h6, hs0] at hl
          omega
      · intro h1
        exfalso
        apply hc
        simp only [transferCount, h1]
        decide
  · intro hall
    have hnil : j.filter (fun step => !step.RouteId.isEmpty) = [] := by
      rw [List.filter_eq_nil_iff]
      intro a ha
      simp only [hall a ha]
      decide
    simp [transferCount, numTransitLegs, hnil]

/-- A concrete walking leg (empty `RouteId`). -/
def walkLeg : Leg :=
  { FromStopId := "S1", FromStop := "Stop One", FromStopCoords := ⟨37, -122⟩,
    ToStopId := "S2", ToStop := "Stop Two", ToStopCoords := ⟨38, -121⟩,
    DepartureTime := ⟨8, 0, 0⟩, ArrivalTime := ⟨8, 2, 30⟩,
    RouteId := "", RouteLongId := "", Shape := none }

/-- Witness for `transferCount_spec`: a walking-only journey displays a
transfer count of −1. -/
theorem transferCount_spec_witness : transferCount [walkLeg] = -1 :=
  (transferCount_spec [walkLeg]).2.2 (by decide)

end Raptor
